import Mathlib

/-!
Shallow embedding of the `rust-usage-accountant` core
(`src/accumulator.rs`, `src/accountant.rs`, `src/producer.rs`).

Modelling conventions:
- `chrono::DateTime<Utc>` instants and `chrono::Duration` spans are modelled
  as mathematical integers counting nanoseconds (chrono stores nanosecond
  precision); `DateTime::timestamp()` is floor-division by 10^9.
- `u64` amounts are `Nat` with the wrap-around of `+=` made explicit as
  `% 2^64` (release-profile Rust semantics).
- `HashMap<UsageKey, u64>` is an association list without duplicate keys;
  its unspecified iteration order is modelled as list order.
- Fallible operations (`duration_trunc`, which panics on a zero span before
  chrono PR 1474) return `Option`.
-/

set_option autoImplicit false

/-- 2^64, the modulus of Rust `u64` arithmetic. -/
def u64Size : Nat := 2 ^ 64

/-- Nanoseconds per second; `DateTime::timestamp()` floors by this. -/
def nsPerSec : Int := 1000000000

/-- `DateTime::timestamp()`: whole seconds since the Unix epoch of an instant
given in nanoseconds (chrono stores seconds plus a nonnegative nanosecond
offset, hence floor division). -/
def timestampSeconds (t : Int) : Int := Int.fdiv t nsPerSec

/-- chrono `DurationRound::duration_trunc` on a timestamp of `t` nanoseconds
with a span of `span` nanoseconds. Returns `none` when the computation
panics: before chrono PR 1474, `stamp % span` with `span = 0` is a division
by zero. For nonzero spans it follows chrono's algorithm literally, using
Rust's truncated remainder (`Int.tmod`). -/
def durationTrunc (t span : Int) : Option Int :=
  if span = 0 then none
  else
    let delta := Int.tmod t span
    if delta = 0 then some t
    else if 0 < delta then some (t - delta)
    else some (t - (span - delta.natAbs))

/-- The unit of measures supported when recording usage
(`src/accountant.rs`, enum `UsageUnit`). -/
inductive UsageUnit where
  | Milliseconds
  | Bytes
  | BytesSec
deriving DecidableEq

/-- The wire string of a `UsageUnit`: serde `rename_all = "snake_case"`,
which agrees with the `Display` impl. -/
def UsageUnit.wireName : UsageUnit → String
  | .Milliseconds => "milliseconds"
  | .Bytes => "bytes"
  | .BytesSec => "bytes_sec"

/-- `UsageKey` from `src/accumulator.rs`: the aggregation-table key. -/
structure UsageKey where
  quantized_timestamp : Int
  resource_id : String
  app_feature : String
  unit : UsageUnit
deriving DecidableEq

/-- One entry update of `usage_batch.entry(key).or_default(); *value += amount`:
adds `amount` (wrapping modulo 2^64) to the entry for `key`, inserting the
entry when absent. Keeps the no-duplicate-keys representation of the map. -/
def updateBatch : List (UsageKey × Nat) → UsageKey → Nat → List (UsageKey × Nat)
  | [], key, amount => [(key, (0 + amount) % u64Size)]
  | (key', v) :: rest, key, amount =>
    if key' = key then (key', (v + amount) % u64Size) :: rest
    else (key', v) :: updateBatch rest key amount

/-- `HashMap::get`-style lookup in the association-list model. -/
def lookupBatch : List (UsageKey × Nat) → UsageKey → Option Nat
  | [], _ => none
  | (key', v) :: rest, key => if key' = key then some v else lookupBatch rest key

/-- `UsageAccumulator` from `src/accumulator.rs`. -/
structure UsageAccumulator where
  usage_batch : List (UsageKey × Nat)
  granularity : Int
  first_timestamp : Option Int
deriving DecidableEq

/-- `UsageAccumulator::new`: empty table, granularity defaulting to 60
seconds (`Duration::seconds(60)` = 60 * 10^9 nanoseconds). -/
def UsageAccumulator.new (granularity : Option Int) : UsageAccumulator :=
  { usage_batch := []
    granularity := granularity.getD (60 * nsPerSec)
    first_timestamp := none }

/-- The quantized timestamp computed at the top of `UsageAccumulator::record`:
`usage_time` unchanged when the granularity is zero (special-cased in the
source because of the chrono division-by-zero panic), otherwise
`usage_time.duration_trunc(granularity).unwrap()`. The `none` fallback is
unreachable for a nonzero granularity (`durationTrunc_isSome_of_ne_zero`). -/
def quantizeTimestamp (granularity usage_time : Int) : Int :=
  if granularity = 0 then usage_time
  else
    match durationTrunc usage_time granularity with
    | some q => q
    | none => usage_time

/-- `UsageAccumulator::record`: quantize the timestamp, set the epoch marker
if unset, and add `amount` to the table entry of the resulting key. -/
def UsageAccumulator.record (acc : UsageAccumulator) (usage_time : Int)
    (resource_id app_feature : String) (amount : Nat) (usage_unit : UsageUnit) :
    UsageAccumulator :=
  let quantized_timestamp := quantizeTimestamp acc.granularity usage_time
  let first_timestamp :=
    match acc.first_timestamp with
    | none => some quantized_timestamp
    | some ft => some ft
  let key : UsageKey :=
    { quantized_timestamp := quantized_timestamp
      resource_id := resource_id
      app_feature := app_feature
      unit := usage_unit }
  { acc with
    first_timestamp := first_timestamp
    usage_batch := updateBatch acc.usage_batch key amount }

/-- `UsageAccumulator::should_flush`: false with no epoch marker, otherwise
true iff the table is nonempty and at least `granularity` has passed since
the marker. -/
def UsageAccumulator.shouldFlush (acc : UsageAccumulator) (current_time : Int) :
    Bool :=
  match acc.first_timestamp with
  | none => false
  | some first_timestamp =>
    decide (0 < acc.usage_batch.length) &&
      decide (acc.granularity ≤ current_time - first_timestamp)

/-- `UsageAccumulator::flush`: return the current table and reset the state
(`mem::take` on the table, `first_timestamp = None`). -/
def UsageAccumulator.flush (acc : UsageAccumulator) :
    List (UsageKey × Nat) × UsageAccumulator :=
  (acc.usage_batch,
   { acc with usage_batch := [], first_timestamp := none })

/-- A single call to `UsageAccumulator::record`, as data: the arguments of
one usage report. -/
structure Report where
  time : Int
  resource_id : String
  app_feature : String
  amount : Nat
  unit : UsageUnit

/-- Run a sequence of `record` calls left to right. -/
def recordMany (acc : UsageAccumulator) : List Report → UsageAccumulator
  | [] => acc
  | r :: rs => recordMany (acc.record r.time r.resource_id r.app_feature r.amount r.unit) rs

/-- The JSON payload handed to `Producer::send`: `serde_json::to_vec` output,
modelled at the level of the wire schema (an object of named fields; the
byte-level rendering is out of scope per the spec). -/
inductive Json where
  | num (n : Int)
  | str (s : String)
  | obj (fields : List (String × Json))

/-- The private `Message` struct of `src/accountant.rs`: the wire-shaped
record serialized for the producer. -/
structure Message where
  timestamp : Int
  shared_resource_id : String
  app_feature : String
  usage_unit : UsageUnit
  amount : Nat

/-- serde serialization of `Message` (derived `Serialize`): an object whose
fields appear in declaration order, `usage_unit` as its snake_case string.
`serde_json::to_vec` always succeeds on this type, so the model is total;
the `if let Ok(payload)` skip branch of `UsageAccountant::flush` is dead. -/
def Message.toJson (m : Message) : Json :=
  .obj [("timestamp", .num m.timestamp),
        ("shared_resource_id", .str m.shared_resource_id),
        ("app_feature", .str m.app_feature),
        ("usage_unit", .str m.usage_unit.wireName),
        ("amount", .num (m.amount : Int))]

/-- The `Message` built from one drained `(key, amount)` entry in
`UsageAccountant::flush` (`key.quantized_timestamp.timestamp()` gives whole
seconds). -/
def entryMessage (key : UsageKey) (amount : Nat) : Message :=
  { timestamp := timestampSeconds key.quantized_timestamp
    shared_resource_id := key.resource_id
    app_feature := key.app_feature
    usage_unit := key.unit
    amount := amount }

/-- `UsageAccountant` from `src/accountant.rs`, polymorphic over the producer
state `σ`. The `Producer` trait method `send(&mut self, payload)` is passed
as a step function `σ → Json → Except ε Unit × σ` (result plus mutated
producer state). -/
structure UsageAccountant (σ : Type) where
  accumulator : UsageAccumulator
  producer : σ

/-- `UsageAccountant::new`. -/
def UsageAccountant.new {σ : Type} (producer : σ) (granularity : Option Int) :
    UsageAccountant σ :=
  { accumulator := UsageAccumulator.new granularity, producer := producer }

/-- The `for (key, amount) in flushed_content` loop of
`UsageAccountant::flush`: serialize each entry and send it, stopping with
the error of the first failing send. -/
def flushLoop {σ ε : Type} (send : σ → Json → Except ε Unit × σ) :
    List (UsageKey × Nat) → σ → Except ε Unit × σ
  | [], producer => (.ok (), producer)
  | (key, amount) :: rest, producer =>
    match send producer (entryMessage key amount).toJson with
    | (.ok _, producer') => flushLoop send rest producer'
    | (.error e, producer') => (.error e, producer')

/-- `UsageAccountant::flush`: drain the accumulator, then send one message
per drained entry. -/
def UsageAccountant.flush {σ ε : Type} (send : σ → Json → Except ε Unit × σ)
    (acct : UsageAccountant σ) : Except ε Unit × UsageAccountant σ :=
  let drained := acct.accumulator.flush
  let sent := flushLoop send drained.1 acct.producer
  (sent.1, { accumulator := drained.2, producer := sent.2 })

/-- `UsageAccountant::record`: record with the captured current time, then
flush when `should_flush` holds for that same time. `Utc::now()` is modelled
as the explicit `current_time` argument. -/
def UsageAccountant.record {σ ε : Type} (send : σ → Json → Except ε Unit × σ)
    (acct : UsageAccountant σ) (current_time : Int)
    (resource_id app_feature : String) (amount : Nat) (unit : UsageUnit) :
    Except ε Unit × UsageAccountant σ :=
  let accumulator' :=
    acct.accumulator.record current_time resource_id app_feature amount unit
  let acct' : UsageAccountant σ :=
    { accumulator := accumulator', producer := acct.producer }
  if accumulator'.shouldFlush current_time then acct'.flush send
  else (.ok (), acct')

/-- `impl Drop for UsageAccountant`: `let _ = self.flush();` — one final
flush whose `Result` is discarded, leaving only the state effects. -/
def UsageAccountant.dropTeardown {σ ε : Type}
    (send : σ → Json → Except ε Unit × σ) (acct : UsageAccountant σ) :
    UsageAccountant σ :=
  (acct.flush send).2

/-- The `DummyProducer` test double of `src/producer.rs`: collects every
payload, never fails. -/
structure DummyProducer where
  messages : List Json

/-- `DummyProducer`'s `send`: append the payload and succeed. -/
def dummySend (p : DummyProducer) (payload : Json) :
    Except Empty Unit × DummyProducer :=
  (.ok (), { messages := p.messages ++ [payload] })

/-- The producer double of the spec's end-to-end error scenario: logs every
attempted payload and fails exactly on its second call (call counter starts
at zero). -/
structure FailSecondProducer where
  calls : Nat
  attempted : List Json

/-- `FailSecondProducer`'s `send`. -/
def failSecondSend (p : FailSecondProducer) (payload : Json) :
    Except String Unit × FailSecondProducer :=
  if p.calls = 1 then
    (.error "send failed", { calls := p.calls + 1, attempted := p.attempted ++ [payload] })
  else
    (.ok (), { calls := p.calls + 1, attempted := p.attempted ++ [payload] })

theorem durationTrunc_isSome_of_ne_zero (t span : Int) (h : span ≠ 0) :
    (durationTrunc t span).isSome := by
  unfold durationTrunc
  simp only [h, if_false]
  split
  · rfl
  · split <;> rfl

theorem updateBatch_ne_nil (b : List (UsageKey × Nat)) (k : UsageKey) (a : Nat) :
    updateBatch b k a ≠ [] := by
  cases b with
  | nil => simp [updateBatch]
  | cons hd tl =>
    obtain ⟨k', v⟩ := hd
    unfold updateBatch
    split <;> simp

theorem lookupBatch_updateBatch_self (b : List (UsageKey × Nat)) (k : UsageKey)
    (a : Nat) :
    lookupBatch (updateBatch b k a) k
      = some (((lookupBatch b k).getD 0 + a) % u64Size) := by
  induction b with
  | nil => simp [updateBatch, lookupBatch]
  | cons hd tl ih =>
    obtain ⟨k', v⟩ := hd
    by_cases hk : k' = k
    · subst hk
      simp [updateBatch, lookupBatch]
    · simp [updateBatch, lookupBatch, hk, ih]

theorem lookupBatch_updateBatch_ne (b : List (UsageKey × Nat)) (k k' : UsageKey)
    (a : Nat) (h : k' ≠ k) :
    lookupBatch (updateBatch b k a) k' = lookupBatch b k' := by
  induction b with
  | nil => simp [updateBatch, lookupBatch, Ne.symm h]
  | cons hd tl ih =>
    obtain ⟨k₀, v⟩ := hd
    by_cases hk : k₀ = k
    · subst hk
      simp [updateBatch, lookupBatch, Ne.symm h]
    · simp [updateBatch, lookupBatch, hk, ih]

theorem lookupBatch_mem (b : List (UsageKey × Nat)) (k : UsageKey) (v : Nat)
    (h : lookupBatch b k = some v) : (k, v) ∈ b := by
  induction b with
  | nil => simp [lookupBatch] at h
  | cons hd tl ih =>
    obtain ⟨k', v'⟩ := hd
    by_cases hk : k' = k
    · subst hk
      simp [lookupBatch] at h
      simp [h]
    · simp [lookupBatch, hk] at h
      exact List.mem_cons_of_mem _ (ih h)

theorem record_granularity (acc : UsageAccumulator) (t : Int) (rid af : String)
    (a : Nat) (u : UsageUnit) :
    (acc.record t rid af a u).granularity = acc.granularity := rfl

theorem record_usage_batch (acc : UsageAccumulator) (t : Int) (rid af : String)
    (a : Nat) (u : UsageUnit) :
    (acc.record t rid af a u).usage_batch
      = updateBatch acc.usage_batch
          ⟨quantizeTimestamp acc.granularity t, rid, af, u⟩ a := rfl

theorem record_first_of_none (acc : UsageAccumulator) (t : Int) (rid af : String)
    (a : Nat) (u : UsageUnit) (h : acc.first_timestamp = none) :
    (acc.record t rid af a u).first_timestamp
      = some (quantizeTimestamp acc.granularity t) := by
  simp [UsageAccumulator.record, h]

theorem record_first_of_some (acc : UsageAccumulator) (t m : Int)
    (rid af : String) (a : Nat) (u : UsageUnit)
    (h : acc.first_timestamp = some m) :
    (acc.record t rid af a u).first_timestamp = some m := by
  simp [UsageAccumulator.record, h]

theorem recordMany_granularity (acc : UsageAccumulator) (rs : List Report) :
    (recordMany acc rs).granularity = acc.granularity := by
  induction rs generalizing acc with
  | nil => rfl
  | cons r rs ih => simp [recordMany, ih, record_granularity]

theorem recordMany_first_of_some (acc : UsageAccumulator) (rs : List Report)
    (m : Int) (h : acc.first_timestamp = some m) :
    (recordMany acc rs).first_timestamp = some m := by
  induction rs generalizing acc with
  | nil => exact h
  | cons r rs ih =>
    simp only [recordMany]
    exact ih _ (record_first_of_some _ _ _ _ _ _ _ h)

theorem recordMany_batch_ne_nil (acc : UsageAccumulator) (rs : List Report)
    (h : acc.usage_batch ≠ []) : (recordMany acc rs).usage_batch ≠ [] := by
  induction rs generalizing acc with
  | nil => exact h
  | cons r rs ih =>
    simp only [recordMany]
    exact ih _ (by rw [record_usage_batch]; exact updateBatch_ne_nil _ _ _)

theorem flush_fst (acc : UsageAccumulator) : (acc.flush).1 = acc.usage_batch := rfl

theorem recordMany_lookup_aux (acc : UsageAccumulator) (rs : List Report)
    (rid af : String) (u : UsageUnit) (q : Int) (v : Nat)
    (hfields : ∀ r ∈ rs, r.resource_id = rid ∧ r.app_feature = af ∧ r.unit = u ∧
        quantizeTimestamp acc.granularity r.time = q)
    (hv : lookupBatch acc.usage_batch ⟨q, rid, af, u⟩ = some v)
    (hvlt : v < u64Size) :
    lookupBatch (recordMany acc rs).usage_batch ⟨q, rid, af, u⟩
      = some ((v + (rs.map Report.amount).sum) % u64Size) := by
  induction rs generalizing acc v with
  | nil =>
    simpa [recordMany, Nat.mod_eq_of_lt hvlt] using hv
  | cons r rs ih =>
    obtain ⟨hrid, haf, hu, hq⟩ := hfields r (by simp)
    have hbatch :
        lookupBatch
            (acc.record r.time r.resource_id r.app_feature r.amount r.unit).usage_batch
            ⟨q, rid, af, u⟩
          = some ((v + r.amount) % u64Size) := by
      rw [record_usage_batch, hrid, haf, hu, hq, lookupBatch_updateBatch_self, hv]
      rfl
    have hfields' : ∀ x ∈ rs, x.resource_id = rid ∧ x.app_feature = af ∧ x.unit = u ∧
        quantizeTimestamp
          (acc.record r.time r.resource_id r.app_feature r.amount r.unit).granularity
          x.time = q := by
      intro x hx
      rw [record_granularity]
      exact hfields x (by simp [hx])
    have hrec := ih _ ((v + r.amount) % u64Size) hfields' hbatch
      (Nat.mod_lt _ (by decide))
    simp only [recordMany]
    rw [hrec]
    simp only [List.map_cons, List.sum_cons, Nat.mod_add_mod, Nat.add_assoc]

theorem flushLoop_append {σ ε : Type} (send : σ → Json → Except ε Unit × σ)
    (xs ys : List (UsageKey × Nat)) (p : σ) :
    flushLoop send (xs ++ ys) p
      = match flushLoop send xs p with
        | (.ok _, p') => flushLoop send ys p'
        | (.error e, p') => (.error e, p') := by
  induction xs generalizing p with
  | nil => simp [flushLoop]
  | cons hd tl ih =>
    obtain ⟨key, amount⟩ := hd
    simp only [List.cons_append, flushLoop]
    cases h : send p (entryMessage key amount).toJson with
    | mk r p' =>
      cases r with
      | ok _ => simpa using ih p'
      | error e => simp

/-- C1 (amended): for every sequence of `record` calls whose reports share the
same quantized timestamp, resource id, app feature and unit under a fixed
granularity, and whose entry is absent at the start, the amount the next
`flush` returns for that key is the sum of the recorded amounts reduced
modulo 2^64 (hence the exact sum whenever it fits in a `u64`), and the entry
is created with the first amount when absent. -/
theorem record_merge_drained_sum (acc : UsageAccumulator) (reports : List Report)
    (r : Report) (rs : List Report) (rid af : String) (u : UsageUnit) (q : Int)
    (hreports : reports = r :: rs)
    (hfields : ∀ x ∈ reports, x.resource_id = rid ∧ x.app_feature = af ∧
        x.unit = u ∧ quantizeTimestamp acc.granularity x.time = q)
    (hamounts : ∀ x ∈ reports, x.amount < u64Size)
    (habsent : lookupBatch acc.usage_batch ⟨q, rid, af, u⟩ = none) :
    lookupBatch ((recordMany acc reports).flush).1 ⟨q, rid, af, u⟩
      = some ((reports.map Report.amount).sum % u64Size) ∧
    lookupBatch
        (acc.record r.time r.resource_id r.app_feature r.amount r.unit).usage_batch
        ⟨q, rid, af, u⟩
      = some r.amount := by
  subst hreports
  obtain ⟨hrid, haf, hu, hq⟩ := hfields r (by simp)
  have hfirst :
      lookupBatch
          (acc.record r.time r.resource_id r.app_feature r.amount r.unit).usage_batch
          ⟨q, rid, af, u⟩
        = some r.amount := by
    rw [record_usage_batch, hrid, haf, hu, hq, lookupBatch_updateBatch_self, habsent]
    simp [Nat.mod_eq_of_lt (hamounts r (by simp))]
  refine ⟨?_, hfirst⟩
  have hfields' : ∀ x ∈ rs, x.resource_id = rid ∧ x.app_feature = af ∧ x.unit = u ∧
      quantizeTimestamp
        (acc.record r.time r.resource_id r.app_feature r.amount r.unit).granularity
        x.time = q := by
    intro x hx
    rw [record_granularity]
    exact hfields x (by simp [hx])
  have hrec := recordMany_lookup_aux _ rs rid af u q r.amount hfields' hfirst
    (hamounts r (by simp))
  rw [flush_fst]
  simp only [recordMany]
  rw [hrec]
  simp only [List.map_cons, List.sum_cons]

/-- C1 counterexample: with two `record` calls of amount 2^63 on the same key,
the drained amount is 0, not the exact sum 2^64 — `u64` addition wraps, so
the claim as stated fails. -/
theorem record_merge_drained_sum_cex :
    lookupBatch ((recordMany (UsageAccumulator.new none)
        [⟨0, "r1", "f1", 9223372036854775808, .Bytes⟩,
         ⟨0, "r1", "f1", 9223372036854775808, .Bytes⟩]).flush).1
        ⟨0, "r1", "f1", .Bytes⟩ = some 0 ∧
      9223372036854775808 + 9223372036854775808 ≠ (0 : Nat) := by
  constructor
  · rfl
  · decide

/-- C1 witness: two reports of 100 and 200 in the same minute bucket drain to
exactly 300, and the first creates the entry with 100. -/
theorem record_merge_drained_sum_witness :
    lookupBatch ((recordMany (UsageAccumulator.new none)
        [⟨0, "r1", "f1", 100, .Bytes⟩, ⟨5000000000, "r1", "f1", 200, .Bytes⟩]).flush).1
        ⟨0, "r1", "f1", .Bytes⟩
      = some (([⟨0, "r1", "f1", 100, .Bytes⟩,
                ⟨5000000000, "r1", "f1", 200, .Bytes⟩].map Report.amount).sum % u64Size) ∧
    lookupBatch ((UsageAccumulator.new none).record 0 "r1" "f1" 100 .Bytes).usage_batch
        ⟨0, "r1", "f1", .Bytes⟩ = some 100 :=
  record_merge_drained_sum (UsageAccumulator.new none)
    [⟨0, "r1", "f1", 100, .Bytes⟩, ⟨5000000000, "r1", "f1", 200, .Bytes⟩]
    ⟨0, "r1", "f1", 100, .Bytes⟩ [⟨5000000000, "r1", "f1", 200, .Bytes⟩]
    "r1" "f1" .Bytes 0 rfl (by decide) (by decide) rfl

/-- C9 (amended): adding a recorded amount to an existing table entry stores
the sum reduced modulo 2^64 — on overflow the value silently wraps (Rust
release-profile `+=` on `u64`); it neither saturates nor fails. -/
theorem record_existing_entry_wraps (acc : UsageAccumulator) (t q : Int)
    (rid af : String) (a v : Nat) (u : UsageUnit)
    (hq : quantizeTimestamp acc.granularity t = q)
    (hv : lookupBatch acc.usage_batch ⟨q, rid, af, u⟩ = some v) :
    lookupBatch (acc.record t rid af a u).usage_batch ⟨q, rid, af, u⟩
      = some ((v + a) % u64Size) := by
  rw [record_usage_batch, hq, lookupBatch_updateBatch_self, hv]
  rfl

/-- C9 counterexample: recording 2^63 twice for the same key leaves the
stored amount at 0 — neither the saturated value 2^64 - 1 nor a failure —
so the claim that `record` saturates or fails loudly is false. -/
theorem record_existing_entry_wraps_cex :
    lookupBatch (((UsageAccumulator.new none).record 0 "r1" "f1" 9223372036854775808
          .Bytes).record 0 "r1" "f1" 9223372036854775808 .Bytes).usage_batch
        ⟨0, "r1", "f1", .Bytes⟩ = some 0 ∧
      (0 : Nat) ≠ u64Size - 1 := by
  constructor
  · rfl
  · decide

/-- C9 witness: an entry holding 7 becomes (7 + 2^64 - 3) mod 2^64 = 4 after
recording 2^64 - 3 for the same key. -/
theorem record_existing_entry_wraps_witness :
    lookupBatch (((UsageAccumulator.new none).record 0 "r1" "f1" 7
          .Bytes).record 0 "r1" "f1" 18446744073709551613 .Bytes).usage_batch
        ⟨0, "r1", "f1", .Bytes⟩ = some ((7 + 18446744073709551613) % u64Size) :=
  record_existing_entry_wraps ((UsageAccumulator.new none).record 0 "r1" "f1" 7 .Bytes)
    0 0 "r1" "f1" 18446744073709551613 7 .Bytes (by decide) (by decide)

/-- C2: starting from an empty accumulator (fresh, or just drained),
`should_flush` is false with no prior `record`; after at least one `record`,
`should_flush t` is true exactly when `granularity ≤ t - m`, where `m` is
the epoch marker set by the first report (its quantized timestamp). -/
theorem should_flush_threshold (acc : UsageAccumulator) (r : Report)
    (rs : List Report) (t : Int)
    (_hempty : acc.usage_batch = []) (hfirst : acc.first_timestamp = none) :
    acc.shouldFlush t = false ∧
    ((recordMany acc (r :: rs)).shouldFlush t = true ↔
      acc.granularity ≤ t - quantizeTimestamp acc.granularity r.time) := by
  constructor
  · simp [UsageAccumulator.shouldFlush, hfirst]
  · have hf : (recordMany acc (r :: rs)).first_timestamp
        = some (quantizeTimestamp acc.granularity r.time) := by
      simp only [recordMany]
      exact recordMany_first_of_some _ _ _ (record_first_of_none _ _ _ _ _ _ hfirst)
    have hb : (recordMany acc (r :: rs)).usage_batch ≠ [] := by
      simp only [recordMany]
      exact recordMany_batch_ne_nil _ _
        (by rw [record_usage_batch]; exact updateBatch_ne_nil _ _ _)
    have hgr : (recordMany acc (r :: rs)).granularity = acc.granularity := by
      simp only [recordMany]
      rw [recordMany_granularity, record_granularity]
    simp [UsageAccumulator.shouldFlush, hf, hgr, List.length_pos.mpr hb]

/-- C2 witness: with the default 60 s granularity, one report at 85 s
(bucket start 60 s) makes `should_flush` at 125 s decidedly a threshold
check against the marker, and the fresh accumulator never flushes. -/
theorem should_flush_threshold_witness :
    (UsageAccumulator.new none).shouldFlush 125000000000 = false ∧
    ((recordMany (UsageAccumulator.new none)
        [⟨85000000000, "r1", "f1", 100, .Bytes⟩]).shouldFlush 125000000000 = true ↔
      (UsageAccumulator.new none).granularity
        ≤ 125000000000
          - quantizeTimestamp (UsageAccumulator.new none).granularity 85000000000) :=
  should_flush_threshold (UsageAccumulator.new none)
    ⟨85000000000, "r1", "f1", 100, .Bytes⟩ [] 125000000000 rfl rfl

/-- The accumulator states reachable from `UsageAccumulator::new` by any
sequence of `record` and `flush` calls. -/
inductive ReachableAccumulator : UsageAccumulator → Prop where
  | new (g : Option Int) : ReachableAccumulator (UsageAccumulator.new g)
  | record (acc : UsageAccumulator) (t : Int) (rid af : String) (a : Nat)
      (u : UsageUnit) :
      ReachableAccumulator acc → ReachableAccumulator (acc.record t rid af a u)
  | flush (acc : UsageAccumulator) :
      ReachableAccumulator acc → ReachableAccumulator (acc.flush).2

/-- C7: in every reachable accumulator state the epoch marker is set exactly
when the table has had an insertion since the last drain, and `flush`
empties the table and clears the marker together. -/
theorem epoch_marker_table_consistent (acc : UsageAccumulator)
    (h : ReachableAccumulator acc) :
    (acc.first_timestamp.isSome ↔ acc.usage_batch ≠ []) ∧
    (acc.flush).2.usage_batch = [] ∧ (acc.flush).2.first_timestamp = none := by
  refine ⟨?_, rfl, rfl⟩
  induction h with
  | new g => simp [UsageAccumulator.new]
  | record acc t rid af a u hacc ih =>
    have hsome : (acc.record t rid af a u).first_timestamp.isSome := by
      cases hft : acc.first_timestamp with
      | none => rw [record_first_of_none _ _ _ _ _ _ hft]; rfl
      | some m => rw [record_first_of_some _ _ _ _ _ _ _ hft]; rfl
    have hne : (acc.record t rid af a u).usage_batch ≠ [] := by
      rw [record_usage_batch]
      exact updateBatch_ne_nil _ _ _
    exact iff_of_true hsome hne
  | flush acc hacc ih => simp [UsageAccumulator.flush]

/-- C7 witness: the invariant at the concrete reachable state obtained by
one `record` after construction. -/
theorem epoch_marker_table_consistent_witness :
    ((((UsageAccumulator.new none).record 0 "r1" "f1" 1 .Bytes).first_timestamp.isSome ↔
      ((UsageAccumulator.new none).record 0 "r1" "f1" 1 .Bytes).usage_batch ≠ []) ∧
    ((((UsageAccumulator.new none).record 0 "r1" "f1" 1 .Bytes).flush).2.usage_batch = [] ∧
      (((UsageAccumulator.new none).record 0 "r1" "f1" 1 .Bytes).flush).2.first_timestamp
        = none)) :=
  epoch_marker_table_consistent _
    (ReachableAccumulator.record _ 0 "r1" "f1" 1 .Bytes
      (ReachableAccumulator.new none))

/-- C6: with a zero granularity the chrono truncation itself would panic
(`durationTrunc _ 0 = none`), but `record` special-cases zero: quantization
is the identity, the raw usage time is the bucket timestamp, and distinct
raw timestamps give distinct bucket keys. -/
theorem zero_granularity_no_quantization (acc : UsageAccumulator) (t s : Int)
    (rid af : String) (a : Nat) (u : UsageUnit) (hg : acc.granularity = 0) :
    durationTrunc t 0 = none ∧
    quantizeTimestamp 0 t = t ∧
    (acc.record t rid af a u).usage_batch
      = updateBatch acc.usage_batch ⟨t, rid, af, u⟩ a ∧
    (t ≠ s → (⟨t, rid, af, u⟩ : UsageKey) ≠ ⟨s, rid, af, u⟩) := by
  refine ⟨by simp [durationTrunc], by simp [quantizeTimestamp], ?_, ?_⟩
  · rw [record_usage_batch, hg]
    simp [quantizeTimestamp]
  · intro hts hk
    exact hts (congrArg UsageKey.quantized_timestamp hk)

/-- C6 witness: granularity zero at the concrete raw timestamps 5 and 7. -/
theorem zero_granularity_no_quantization_witness :
    durationTrunc 5 0 = none ∧
    quantizeTimestamp 0 5 = 5 ∧
    ((UsageAccumulator.new (some 0)).record 5 "r1" "f1" 3 .Bytes).usage_batch
      = updateBatch (UsageAccumulator.new (some 0)).usage_batch
          ⟨5, "r1", "f1", .Bytes⟩ 3 ∧
    (⟨5, "r1", "f1", .Bytes⟩ : UsageKey) ≠ ⟨7, "r1", "f1", .Bytes⟩ :=
  have h := zero_granularity_no_quantization (UsageAccumulator.new (some 0)) 5 7
    "r1" "f1" 3 .Bytes rfl
  ⟨h.1, h.2.1, h.2.2.1, h.2.2.2 (by decide)⟩

/-- The result of a successful `flushLoop` over the `DummyProducer`: every
drained entry's serialized message is appended, in drain order, and the loop
reports success. -/
theorem flushLoop_dummy (entries : List (UsageKey × Nat)) (p : DummyProducer) :
    flushLoop dummySend entries p
      = (.ok (), ⟨p.messages
          ++ entries.map (fun entry => (entryMessage entry.1 entry.2).toJson)⟩) := by
  induction entries generalizing p with
  | nil => simp [flushLoop]
  | cons hd tl ih =>
    obtain ⟨key, amount⟩ := hd
    simp [flushLoop, dummySend, ih]

/-- C4: `Accountant::record` aggregates with the captured timestamp, checks
`should_flush` with that same timestamp, and either returns `Ok` without
touching the producer or performs a flush and propagates its result. -/
theorem accountant_record_control_flow {σ ε : Type}
    (send : σ → Json → Except ε Unit × σ) (acct : UsageAccountant σ)
    (t : Int) (rid af : String) (a : Nat) (u : UsageUnit) :
    ((acct.accumulator.record t rid af a u).shouldFlush t = false →
      UsageAccountant.record send acct t rid af a u
        = (.ok (), { accumulator := acct.accumulator.record t rid af a u,
                     producer := acct.producer })) ∧
    ((acct.accumulator.record t rid af a u).shouldFlush t = true →
      UsageAccountant.record send acct t rid af a u
        = UsageAccountant.flush send
            { accumulator := acct.accumulator.record t rid af a u,
              producer := acct.producer }) := by
  constructor
  · intro h
    simp [UsageAccountant.record, h]
  · intro h
    simp [UsageAccountant.record, h]

/-- C4 witness: a first report at time 0 does not reach the 60 s threshold,
so `record` returns `Ok` and leaves the producer untouched. -/
theorem accountant_record_control_flow_witness :
    UsageAccountant.record dummySend
        (UsageAccountant.new ⟨[]⟩ none) 0 "r1" "f1" 100 .Bytes
      = (.ok (),
         ⟨(UsageAccountant.new (⟨[]⟩ : DummyProducer) none).accumulator.record
             0 "r1" "f1" 100 .Bytes,
          (UsageAccountant.new (⟨[]⟩ : DummyProducer) none).producer⟩) :=
  (accountant_record_control_flow dummySend (UsageAccountant.new ⟨[]⟩ none)
    0 "r1" "f1" 100 .Bytes).1 (by decide)

/-- C5: `Accountant::flush` hands the producer, per drained entry in drain
order, the serialized JSON object with exactly the fields `timestamp` (whole
seconds of the bucket's quantized start), `shared_resource_id`,
`app_feature`, `usage_unit` and `amount`, and the unit string is one of
"milliseconds", "bytes", "bytes_sec". -/
theorem flush_wire_format (acct : UsageAccountant DummyProducer) :
    (acct.flush dummySend).1 = .ok () ∧
    (acct.flush dummySend).2.producer.messages
      = acct.producer.messages ++ acct.accumulator.usage_batch.map (fun entry =>
          Json.obj
            [("timestamp", .num (timestampSeconds entry.1.quantized_timestamp)),
             ("shared_resource_id", .str entry.1.resource_id),
             ("app_feature", .str entry.1.app_feature),
             ("usage_unit", .str entry.1.unit.wireName),
             ("amount", .num (entry.2 : Int))]) ∧
    (∀ u : UsageUnit, u.wireName = "milliseconds" ∨ u.wireName = "bytes" ∨
      u.wireName = "bytes_sec") := by
  refine ⟨?_, ?_, ?_⟩
  · show (flushLoop dummySend acct.accumulator.usage_batch acct.producer).1 = .ok ()
    rw [flushLoop_dummy]
  · show (flushLoop dummySend acct.accumulator.usage_batch acct.producer).2.messages = _
    rw [flushLoop_dummy]
    rfl
  · intro u
    cases u <;> simp [UsageUnit.wireName]

/-- C3: when a send fails during `Accountant::flush`, the loop stops at that
entry: the error is returned, the producer state is exactly the state after
the failing call (earlier entries were sent once, later entries never), and
the accumulator is left drained — the unsent entries are lost, not
re-buffered. -/
theorem flush_stops_at_first_send_error {σ ε : Type}
    (send : σ → Json → Except ε Unit × σ) (acct : UsageAccountant σ)
    (done rest : List (UsageKey × Nat)) (key : UsageKey) (amount : Nat)
    (p₁ p₂ : σ) (e : ε)
    (hbatch : acct.accumulator.usage_batch = done ++ (key, amount) :: rest)
    (hdone : flushLoop send done acct.producer = (.ok (), p₁))
    (hfail : send p₁ (entryMessage key amount).toJson = (.error e, p₂)) :
    acct.flush send
      = (.error e,
         { accumulator :=
             { usage_batch := []
               granularity := acct.accumulator.granularity
               first_timestamp := none }
           producer := p₂ }) := by
  show (let drained := acct.accumulator.flush
        let sent := flushLoop send drained.1 acct.producer
        ((sent.1, { accumulator := drained.2, producer := sent.2 })
          : Except ε Unit × UsageAccountant σ)) = _
  simp only [UsageAccumulator.flush, hbatch, flushLoop_append, hdone, flushLoop, hfail]

/-- C3 witness: the spec's error scenario — a two-entry flush against a
producer failing on its second call reports that error, attempts exactly the
two payloads once each, and drains the accumulator. -/
theorem flush_stops_at_first_send_error_witness :
    UsageAccountant.flush failSecondSend
        { accumulator :=
            { usage_batch := [(⟨0, "r1", "f1", .Bytes⟩, 300), (⟨0, "r1", "f2", .Bytes⟩, 50)]
              granularity := 60000000000
              first_timestamp := some 0 }
          producer := { calls := 0, attempted := [] } }
      = (.error "send failed",
         { accumulator :=
             { usage_batch := []
               granularity := 60000000000
               first_timestamp := none }
           producer :=
             { calls := 2
               attempted := [(entryMessage ⟨0, "r1", "f1", .Bytes⟩ 300).toJson,
                             (entryMessage ⟨0, "r1", "f2", .Bytes⟩ 50).toJson] } }) :=
  flush_stops_at_first_send_error failSecondSend
    { accumulator :=
        { usage_batch := [(⟨0, "r1", "f1", .Bytes⟩, 300), (⟨0, "r1", "f2", .Bytes⟩, 50)]
          granularity := 60000000000
          first_timestamp := some 0 }
      producer := { calls := 0, attempted := [] } }
    [(⟨0, "r1", "f1", .Bytes⟩, 300)] [] ⟨0, "r1", "f2", .Bytes⟩ 50
    { calls := 1, attempted := [(entryMessage ⟨0, "r1", "f1", .Bytes⟩ 300).toJson] }
    { calls := 2
      attempted := [(entryMessage ⟨0, "r1", "f1", .Bytes⟩ 300).toJson,
                    (entryMessage ⟨0, "r1", "f2", .Bytes⟩ 50).toJson] }
    "send failed" rfl rfl rfl

/-- C8: teardown (`impl Drop`) performs the state effects of exactly one
final flush — the buffered table is drained, its sends issued — and yields a
plain state rather than a `Result`: in particular, whenever the flush's own
result is an error, teardown still completes with the flush's post-state,
the error being discarded. -/
theorem drop_teardown_best_effort {σ ε : Type}
    (send : σ → Json → Except ε Unit × σ) (acct : UsageAccountant σ) :
    UsageAccountant.dropTeardown send acct = (acct.flush send).2 ∧
    (UsageAccountant.dropTeardown send acct).accumulator.usage_batch = [] ∧
    (UsageAccountant.dropTeardown send acct).accumulator.first_timestamp = none ∧
    (∀ e : ε, (acct.flush send).1 = .error e →
      UsageAccountant.dropTeardown send acct = (acct.flush send).2) :=
  ⟨rfl, rfl, rfl, fun _ _ => rfl⟩

/-- C8 witness: teardown with a producer that fails on its second send still
completes, leaving the post-flush state, with the send error discarded. -/
theorem drop_teardown_best_effort_witness :
    (UsageAccountant.flush failSecondSend
        (⟨⟨[(⟨0, "r1", "f1", .Bytes⟩, 1), (⟨0, "r1", "f2", .Bytes⟩, 2)],
           60000000000, some 0⟩, ⟨0, []⟩⟩ : UsageAccountant FailSecondProducer)).1
      = .error "send failed" ∧
    UsageAccountant.dropTeardown failSecondSend
        (⟨⟨[(⟨0, "r1", "f1", .Bytes⟩, 1), (⟨0, "r1", "f2", .Bytes⟩, 2)],
           60000000000, some 0⟩, ⟨0, []⟩⟩ : UsageAccountant FailSecondProducer)
      = (UsageAccountant.flush failSecondSend
          (⟨⟨[(⟨0, "r1", "f1", .Bytes⟩, 1), (⟨0, "r1", "f2", .Bytes⟩, 2)],
             60000000000, some 0⟩, ⟨0, []⟩⟩ : UsageAccountant FailSecondProducer)).2 :=
  ⟨rfl,
   (drop_teardown_best_effort failSecondSend
      ⟨⟨[(⟨0, "r1", "f1", .Bytes⟩, 1), (⟨0, "r1", "f2", .Bytes⟩, 2)],
        60000000000, some 0⟩, ⟨0, []⟩⟩).2.2.2 "send failed" rfl⟩

/-- C10: recording amount zero is not a no-op: it creates the entry with
value 0, sets the epoch marker when it is the first report since the last
drain, and the next accountant flush emits the wire message with amount 0
for that key. -/
theorem record_zero_amount_not_noop (acc : UsageAccumulator) (t : Int)
    (rid af : String) (u : UsageUnit)
    (habsent : lookupBatch acc.usage_batch
        ⟨quantizeTimestamp acc.granularity t, rid, af, u⟩ = none)
    (hfirst : acc.first_timestamp = none) :
    lookupBatch (acc.record t rid af 0 u).usage_batch
        ⟨quantizeTimestamp acc.granularity t, rid, af, u⟩ = some 0 ∧
    (acc.record t rid af 0 u).first_timestamp
      = some (quantizeTimestamp acc.granularity t) ∧
    Json.obj
        [("timestamp", .num (timestampSeconds (quantizeTimestamp acc.granularity t))),
         ("shared_resource_id", .str rid),
         ("app_feature", .str af),
         ("usage_unit", .str u.wireName),
         ("amount", .num 0)]
      ∈ (UsageAccountant.flush dummySend
          ⟨acc.record t rid af 0 u, ⟨[]⟩⟩).2.producer.messages := by
  have h1 : lookupBatch (acc.record t rid af 0 u).usage_batch
      ⟨quantizeTimestamp acc.granularity t, rid, af, u⟩ = some 0 := by
    rw [record_usage_batch, lookupBatch_updateBatch_self, habsent]
    simp
  refine ⟨h1, record_first_of_none _ _ _ _ _ _ hfirst, ?_⟩
  have hmem := lookupBatch_mem _ _ _ h1
  show _ ∈ (flushLoop dummySend (acc.record t rid af 0 u).usage_batch ⟨[]⟩).2.messages
  rw [flushLoop_dummy]
  simp only [List.nil_append]
  exact List.mem_map.mpr ⟨_, hmem, rfl⟩

/-- C10 witness: a zero-amount report on a fresh accumulator creates the
entry, sets the marker, and the flush emits the amount-0 message. -/
theorem record_zero_amount_not_noop_witness :
    lookupBatch ((UsageAccumulator.new none).record 0 "r1" "f1" 0 .Bytes).usage_batch
        ⟨quantizeTimestamp (UsageAccumulator.new none).granularity 0, "r1", "f1", .Bytes⟩
      = some 0 ∧
    ((UsageAccumulator.new none).record 0 "r1" "f1" 0 .Bytes).first_timestamp
      = some (quantizeTimestamp (UsageAccumulator.new none).granularity 0) ∧
    Json.obj
        [("timestamp",
          .num (timestampSeconds (quantizeTimestamp (UsageAccumulator.new none).granularity 0))),
         ("shared_resource_id", .str "r1"),
         ("app_feature", .str "f1"),
         ("usage_unit", .str UsageUnit.Bytes.wireName),
         ("amount", .num 0)]
      ∈ (UsageAccountant.flush dummySend
          ⟨(UsageAccumulator.new none).record 0 "r1" "f1" 0 .Bytes, ⟨[]⟩⟩).2.producer.messages :=
  record_zero_amount_not_noop (UsageAccumulator.new none) 0 "r1" "f1" .Bytes rfl rfl
